import Mathlib

/-!
Verification of the enrollment / lecture-review / submission lifecycle of the
education-system backend.

The definitions below are a shallow embedding of the repository's controllers
and models.  The relational (Sequelize) side — students, teachers, courses,
enrollments, lectures — is modelled by `RelDb` and the operations of
`studentController.js`, `teacherController.js` and the lecture controller.
The document (Mongoose) side — assignments with embedded submissions — is
modelled by `MDb` and the operations of `assignmentController.js`.

Machine conventions:
* ids are `Nat` (the source uses UUID / ObjectId strings; only equality
  matters),
* timestamps are `Int` (epoch milliseconds),
* a JavaScript `null`/`undefined` field is `Option.none`,
* every fallible controller returns `Db × Except ErrorHandler α`: on error the
  returned state is the input state (the controller rolls its transaction
  back), on success it is the committed state.
-/

namespace EduSys

/-- Embeds `ErrorHandler` of `middleware/errorHandler.js`:
an error with a message and an HTTP status code. -/
structure ErrorHandler where
  message : String
  statusCode : Nat
deriving Repr, DecidableEq

/-- `true` exactly on `Except.ok`. -/
def exceptOk {α : Type} (e : Except ErrorHandler α) : Bool :=
  match e with
  | .ok _ => true
  | .error _ => false

/-- Row of the `Teachers` table (`models/Teacher.js`). -/
structure Teacher where
  id : Nat
  userId : Nat
  email : String
deriving Repr, DecidableEq

/-- Row of the `Students` table (`models/Student.js`); `teacherId` and
`teacherEmail` are nullable in the code paths that assign students. -/
structure Student where
  id : Nat
  userId : Nat
  teacherId : Option Nat
  teacherEmail : Option String
deriving Repr, DecidableEq

/-- Row of the `Courses` table (`models/Course.js`). -/
structure Course where
  id : Nat
  title : String
  aboutCourse : String
  semesterId : Nat
  teacherId : Nat
deriving Repr, DecidableEq

/-- Row of the `StudentCourses` junction table (`models/StudentCourse.js`),
unique on `(studentId, courseId)`. -/
structure StudentCourse where
  studentId : Nat
  courseId : Nat
  enrollmentDate : Int
deriving Repr, DecidableEq

/-- Row of the `Lectures` table (Sequelize `Lecture` model). -/
structure Lecture where
  id : Nat
  title : String
  content : Option String
  videoUrl : Option String
  videoKey : Option String
  courseId : Nat
  isReviewed : Bool
  reviewDeadline : Option Int
  createdAt : Int
deriving Repr, DecidableEq

/-- The relational database state: the tables touched by the claims. -/
structure RelDb where
  teachers : List Teacher
  students : List Student
  courses : List Course
  enrollments : List StudentCourse
  lectures : List Lecture
deriving Repr, DecidableEq

/-- `Course.findByPk(courseId)`. -/
def findCourseById (db : RelDb) (courseId : Nat) : Option Course :=
  db.courses.find? (fun c => c.id == courseId)

/-- `Student.findOne({ where: { userId } })`. -/
def findStudentByUserId (db : RelDb) (userId : Nat) : Option Student :=
  db.students.find? (fun s => s.userId == userId)

/-- `Teacher.findOne({ where: { userId } })`. -/
def findTeacherByUserId (db : RelDb) (userId : Nat) : Option Teacher :=
  db.teachers.find? (fun t => t.userId == userId)

/-- `StudentCourse.findOne({ where: { studentId, courseId } })`. -/
def findEnrollment (db : RelDb) (studentId courseId : Nat) : Option StudentCourse :=
  db.enrollments.find? (fun e => e.studentId == studentId && e.courseId == courseId)

/-- `Course.findOne({ where: { id: courseId, teacherId } })`. -/
def findCourseOwned (db : RelDb) (courseId teacherId : Nat) : Option Course :=
  db.courses.find? (fun c => c.id == courseId && c.teacherId == teacherId)

/-- `Lecture.findByPk(lectureId)`. -/
def findLectureById (db : RelDb) (lectureId : Nat) : Option Lecture :=
  db.lectures.find? (fun l => l.id == lectureId)

def courseNotFoundError : ErrorHandler := ⟨"Course not found", 404⟩

def studentNotFoundError : ErrorHandler := ⟨"Student not found", 404⟩

def teacherNotFoundError : ErrorHandler := ⟨"Teacher not found", 404⟩

def teacherMismatchError : ErrorHandler :=
  ⟨"You can only enroll in courses taught by your assigned teacher", 403⟩

def alreadyEnrolledError : ErrorHandler := ⟨"Already enrolled in this course", 400⟩

/-- Embeds `enrollCourse` of `controllers/studentController.js` (lines 13-123):
find the course (404), find the caller's student profile (404), require the
student's teacher to be the course's teacher (403), require no existing
enrollment row (400 "Already enrolled in this course"), then insert
`{studentId, courseId, enrollmentDate: new Date()}` inside the transaction.
On any error the transaction is rolled back (state returned unchanged). -/
def enrollCourse (db : RelDb) (courseId : Nat) (userId : Nat) (now : Int) :
    RelDb × Except ErrorHandler StudentCourse :=
  match findCourseById db courseId with
  | none => (db, .error courseNotFoundError)
  | some course =>
    match findStudentByUserId db userId with
    | none => (db, .error studentNotFoundError)
    | some student =>
      if student.teacherId != some course.teacherId then
        (db, .error teacherMismatchError)
      else
        match findEnrollment db student.id courseId with
        | some _ => (db, .error alreadyEnrolledError)
        | none =>
          let row : StudentCourse := ⟨student.id, courseId, now⟩
          ({ db with enrollments := db.enrollments ++ [row] }, .ok row)

theorem findEnrollment_append_self (db : RelDb) (row : StudentCourse)
    (h : findEnrollment db row.studentId row.courseId = none) :
    findEnrollment { db with enrollments := db.enrollments ++ [row] }
        row.studentId row.courseId = some row := by
  unfold findEnrollment at h ⊢
  simp only [List.find?_append, h]
  simp

/-- Characterization of a successful `enrollCourse` call: all four checks
passed, and the result is the appended row. -/
theorem enrollCourse_ok_elim (db : RelDb) (courseId userId : Nat) (now : Int)
    (db' : RelDb) (row : StudentCourse)
    (h : enrollCourse db courseId userId now = (db', .ok row)) :
    ∃ course student,
      findCourseById db courseId = some course ∧
      findStudentByUserId db userId = some student ∧
      student.teacherId = some course.teacherId ∧
      findEnrollment db student.id courseId = none ∧
      row = ⟨student.id, courseId, now⟩ ∧
      db' = { db with enrollments := db.enrollments ++ [row] } := by
  unfold enrollCourse at h
  split at h
  · cases h
  next course hc =>
    split at h
    · cases h
    next student hs =>
      split at h
      · cases h
      next hne =>
        rw [Bool.not_eq_true, bne_eq_false_iff_eq] at hne
        split at h
        · cases h
        next he =>
          injection h with h1 h2
          injection h2 with h2
          exact ⟨course, student, hc, hs, hne, he, h2.symm, by rw [← h1, ← h2]⟩

/-- Construction of a successful `enrollCourse` call from its preconditions. -/
theorem enrollCourse_ok_intro (db : RelDb) (courseId userId : Nat) (now : Int)
    (course : Course) (student : Student)
    (hc : findCourseById db courseId = some course)
    (hs : findStudentByUserId db userId = some student)
    (ht : student.teacherId = some course.teacherId)
    (he : findEnrollment db student.id courseId = none) :
    enrollCourse db courseId userId now =
      ({ db with enrollments := db.enrollments ++ [⟨student.id, courseId, now⟩] },
        .ok ⟨student.id, courseId, now⟩) := by
  unfold enrollCourse
  rw [hc, hs]
  have hne : (student.teacherId != some course.teacherId) = false :=
    bne_eq_false_iff_eq.mpr ht
  simp only [hne, Bool.false_eq_true, if_false, he]

/-- A duplicate row makes `enrollCourse` fail with the duplicate-enrollment
error, leaving the state unchanged. -/
theorem enrollCourse_error_of_dup (db : RelDb) (courseId userId : Nat) (now : Int)
    (course : Course) (student : Student) (e : StudentCourse)
    (hc : findCourseById db courseId = some course)
    (hs : findStudentByUserId db userId = some student)
    (ht : student.teacherId = some course.teacherId)
    (he : findEnrollment db student.id courseId = some e) :
    enrollCourse db courseId userId now = (db, .error alreadyEnrolledError) := by
  unfold enrollCourse
  rw [hc, hs]
  have hne : (student.teacherId != some course.teacherId) = false :=
    bne_eq_false_iff_eq.mpr ht
  simp only [hne, Bool.false_eq_true, if_false, he]

/-- C1: `Enroll(s,c)` succeeds iff the course and the caller's student profile
exist, the course's teacher equals the student's teacher, and no
`(studentId, courseId)` enrollment row exists; on success it appends the row
`{studentId, courseId, enrollmentDate = now}` inside the transaction, and a
second call for the same student and course fails with the duplicate-enrollment
error (`"Already enrolled in this course"`) while leaving the database — in
particular the enrollment table — unchanged. -/
theorem enrollCourse_spec (db : RelDb) (courseId userId : Nat) (now now2 : Int) :
    (exceptOk (enrollCourse db courseId userId now).2 = true ↔
      ∃ course student,
        findCourseById db courseId = some course ∧
        findStudentByUserId db userId = some student ∧
        student.teacherId = some course.teacherId ∧
        findEnrollment db student.id courseId = none) ∧
    (∀ db' row, enrollCourse db courseId userId now = (db', .ok row) →
      row.enrollmentDate = now ∧
      db'.enrollments = db.enrollments ++ [row] ∧
      (enrollCourse db' courseId userId now2).2 = .error alreadyEnrolledError ∧
      (enrollCourse db' courseId userId now2).1 = db') := by
  constructor
  · constructor
    · intro hok
      cases hres : enrollCourse db courseId userId now with
      | mk dbr er =>
        cases er with
        | error e => rw [hres] at hok; simp [exceptOk] at hok
        | ok row =>
          obtain ⟨course, student, hc, hs, ht, he, _, _⟩ :=
            enrollCourse_ok_elim db courseId userId now dbr row hres
          exact ⟨course, student, hc, hs, ht, he⟩
    · rintro ⟨course, student, hc, hs, ht, he⟩
      rw [enrollCourse_ok_intro db courseId userId now course student hc hs ht he]
      rfl
  · intro db' row h
    obtain ⟨course, student, hc, hs, ht, he, hrow, hdb⟩ :=
      enrollCourse_ok_elim db courseId userId now db' row h
    subst hrow
    subst hdb
    refine ⟨rfl, rfl, ?_, ?_⟩
    · have hdup := enrollCourse_error_of_dup
        { db with enrollments := db.enrollments ++ [⟨student.id, courseId, now⟩] }
        courseId userId now2 course student ⟨student.id, courseId, now⟩
        hc hs ht (findEnrollment_append_self db ⟨student.id, courseId, now⟩ he)
      rw [hdup]
    · have hdup := enrollCourse_error_of_dup
        { db with enrollments := db.enrollments ++ [⟨student.id, courseId, now⟩] }
        courseId userId now2 course student ⟨student.id, courseId, now⟩
        hc hs ht (findEnrollment_append_self db ⟨student.id, courseId, now⟩ he)
      rw [hdup]

/-- Concrete database for the C1 witness: one teacher (id 1, user 100), one
student (id 10, user 200) assigned to that teacher, one course (id 20) owned by
that teacher, no enrollments. -/
def exDbC1 : RelDb :=
  { teachers := [⟨1, 100, "t@example.com"⟩]
    students := [⟨10, 200, some 1, some "t@example.com"⟩]
    courses := [⟨20, "Algebra", "about", 5, 1⟩]
    enrollments := []
    lectures := [] }

/-- Witness for C1: on the concrete database the first enrollment call
succeeds and appends the row, and the second call fails with the
duplicate-enrollment error leaving the state unchanged. -/
theorem enrollCourse_spec_witness :
    (⟨10, 20, 5⟩ : StudentCourse).enrollmentDate = 5 ∧
    (enrollCourse exDbC1 20 200 5).1.enrollments = exDbC1.enrollments ++ [⟨10, 20, 5⟩] ∧
    (enrollCourse (enrollCourse exDbC1 20 200 5).1 20 200 9).2 = .error alreadyEnrolledError ∧
    (enrollCourse (enrollCourse exDbC1 20 200 5).1 20 200 9).1 = (enrollCourse exDbC1 20 200 5).1 :=
  (enrollCourse_spec exDbC1 20 200 5 9).2 (enrollCourse exDbC1 20 200 5).1 ⟨10, 20, 5⟩ rfl

/-! ### Lecture controller (`src/unnamed/part_011`, Sequelize lecture controller) -/

/-- The role resolved from the bearer credential (`req.user.role`). -/
inductive Role where
  | admin
  | teacher
  | student
deriving Repr, DecidableEq

def courseNotFoundOrUnauthorizedError : ErrorHandler :=
  ⟨"Course not found or unauthorized", 404⟩

def lectureNotFoundError : ErrorHandler := ⟨"Lecture not found", 404⟩

def lectureViewForbiddenError : ErrorHandler :=
  ⟨"You don't have permission to view this lecture", 403⟩

def lectureUpdateForbiddenError : ErrorHandler :=
  ⟨"You don't have permission to update this lecture", 403⟩

def lectureDeleteForbiddenError : ErrorHandler :=
  ⟨"You don't have permission to delete this lecture", 403⟩

def lectureNotAvailableError : ErrorHandler :=
  ⟨"This lecture is not yet available for viewing", 403⟩

def notEnrolledError : ErrorHandler := ⟨"You are not enrolled in this course", 403⟩

/-- The overdue-and-unreviewed check
`!lecture.isReviewed && lecture.reviewDeadline && now >= lecture.reviewDeadline`
used by the lazy flips in `getLectureById` and `getCourseLectures` and by the
`beforeSave` hook of the Sequelize `Lecture` model (a `Date` value is always
truthy in JavaScript, so the middle conjunct is just non-nullness). -/
def overdueUnreviewed (now : Int) (l : Lecture) : Bool :=
  !l.isReviewed &&
    (match l.reviewDeadline with
      | some d => decide (now ≥ d)
      | none => false)

/-- Flip an overdue unreviewed lecture to reviewed; otherwise leave it alone.
This is the effect of `lecture.update({ isReviewed: true })` on the lazy read
paths and of the model's `beforeSave` hook on instance saves. -/
def reviewFlip (now : Int) (l : Lecture) : Lecture :=
  if overdueUnreviewed now l then { l with isReviewed := true } else l

/-- Persist one lecture instance back to the table (update-by-primary-key). -/
def saveLectureRow (db : RelDb) (oldId : Nat) (l' : Lecture) : RelDb :=
  { db with lectures := db.lectures.map (fun x => if x.id == oldId then l' else x) }

/-- Embeds `getCourseLectures` (teacher list view, part_011 lines 233-289):
authorize the teacher and course, fetch the course's lectures, then flip and
persist every lecture whose review deadline has passed; the (flipped) list is
the payload. -/
def getCourseLectures (db : RelDb) (userId courseId : Nat) (now : Int) :
    RelDb × Except ErrorHandler (List Lecture) :=
  match findTeacherByUserId db userId with
  | none => (db, .error teacherNotFoundError)
  | some teacher =>
    match findCourseOwned db courseId teacher.id with
    | none => (db, .error courseNotFoundOrUnauthorizedError)
    | some course =>
      let fetched := db.lectures.filter (fun l => l.courseId == course.id)
      let db' := { db with lectures := db.lectures.map (fun l =>
        if l.courseId == course.id then reviewFlip now l else l) }
      (db', .ok (fetched.map (reviewFlip now)))

/-- Embeds `getCourseLecturesByStudents` (student list view, part_011 lines
292-350): authorize the student's enrollment, then return only the lectures
already stored with `isReviewed = true`.  This path performs no deadline check
and writes nothing (its payload also projects away the review fields; the
projection is immaterial here and is not modelled). -/
def getCourseLecturesByStudents (db : RelDb) (userId courseId : Nat) :
    RelDb × Except ErrorHandler (List Lecture) :=
  match findStudentByUserId db userId with
  | none => (db, .error studentNotFoundError)
  | some student =>
    match findEnrollment db student.id courseId with
    | none => (db, .error notEnrolledError)
    | some _ =>
      (db, .ok (db.lectures.filter (fun l => l.courseId == courseId && l.isReviewed)))

/-- The role-based permission block of `getLectureById` (part_011 lines
373-426): a teacher must own the lecture's course; a student must exist, be
enrolled, and — checked before any flip — the lecture must already be
reviewed; any other role passes. -/
def lectureReadAuth (db : RelDb) (userId : Nat) (role : Role) (lecture : Lecture) :
    Except ErrorHandler Unit :=
  match role with
  | .teacher =>
    match findTeacherByUserId db userId with
    | none => .error lectureViewForbiddenError
    | some teacher =>
      if (findCourseById db lecture.courseId).map Course.teacherId != some teacher.id then
        .error lectureViewForbiddenError
      else .ok ()
  | .student =>
    match findStudentByUserId db userId with
    | none => .error studentNotFoundError
    | some student =>
      match findEnrollment db student.id lecture.courseId with
      | none => .error lectureViewForbiddenError
      | some _ =>
        if !lecture.isReviewed then .error lectureNotAvailableError
        else .ok ()
  | .admin => .ok ()

/-- Embeds `getLectureById` (part_011 lines 353-446): fetch the lecture,
authorize by role, then lazily flip and persist the lecture if its review
deadline has passed; the caller receives the flipped state. -/
def getLectureById (db : RelDb) (userId : Nat) (role : Role) (lectureId : Nat)
    (now : Int) : RelDb × Except ErrorHandler Lecture :=
  match findLectureById db lectureId with
  | none => (db, .error lectureNotFoundError)
  | some lecture =>
    match lectureReadAuth db userId role lecture with
    | .error e => (db, .error e)
    | .ok _ =>
      if overdueUnreviewed now lecture then
        let lecture' := { lecture with isReviewed := true }
        (saveLectureRow db lecture.id lecture', .ok lecture')
      else
        (db, .ok lecture)

/-- The `WHERE` clause of the bulk sweep in `updateAllLectureReviewStatuses`:
`courseId = course.id AND isReviewed = false AND reviewDeadline <= now`
(an SQL comparison against a `NULL` deadline matches nothing). -/
def sweepCond (courseId : Nat) (now : Int) (l : Lecture) : Bool :=
  l.courseId == courseId && !l.isReviewed &&
    (match l.reviewDeadline with
      | some d => decide (d ≤ now)
      | none => false)

/-- Embeds `updateAllLectureReviewStatuses` (part_011 lines 528-582): a single
conditional bulk update setting `isReviewed = true` on the matching rows,
returning the number of rows changed. -/
def updateAllLectureReviewStatuses (db : RelDb) (userId courseId : Nat)
    (now : Int) : RelDb × Except ErrorHandler Nat :=
  match findTeacherByUserId db userId with
  | none => (db, .error teacherNotFoundError)
  | some teacher =>
    match findCourseOwned db courseId teacher.id with
    | none => (db, .error courseNotFoundOrUnauthorizedError)
    | some course =>
      let db' := { db with lectures := db.lectures.map (fun l =>
        if sweepCond course.id now l then { l with isReviewed := true } else l) }
      (db', .ok (db.lectures.filter (sweepCond course.id now)).length)

/-- Body of the single-lecture review update: `req.body.isReviewed` (written
verbatim into the update) and an optional `reviewDeadline` (only written when
truthy). -/
structure ReviewStatusBody where
  isReviewed : Option Bool
  reviewDeadline : Option Int
deriving Repr, DecidableEq

/-- Embeds `updateLectureReviewStatus` (part_011 lines 585-662): authorize,
then write `isReviewed` (whatever boolean the caller supplied) and, when
supplied, `reviewDeadline`; the Sequelize `beforeSave` hook then flips an
overdue unreviewed result back to reviewed. -/
def updateLectureReviewStatus (db : RelDb) (userId lectureId : Nat)
    (body : ReviewStatusBody) (now : Int) : RelDb × Except ErrorHandler Lecture :=
  match findTeacherByUserId db userId with
  | none => (db, .error teacherNotFoundError)
  | some teacher =>
    match findLectureById db lectureId with
    | none => (db, .error lectureNotFoundError)
    | some lecture =>
      match findCourseOwned db lecture.courseId teacher.id with
      | none => (db, .error lectureUpdateForbiddenError)
      | some _ =>
        let updated := { lecture with
          isReviewed := body.isReviewed.getD lecture.isReviewed
          reviewDeadline := match body.reviewDeadline with
            | some d => some d
            | none => lecture.reviewDeadline }
        let saved := reviewFlip now updated
        (saveLectureRow db lecture.id saved, .ok saved)

/-- Body of the general lecture update (part_011 lines 169-176); the video
file-upload branch goes to the storage collaborator and only touches
`videoUrl`/`videoKey`, so it is not modelled. -/
structure LectureUpdateBody where
  title : Option String
  content : Option String
  isReviewed : Option Bool
  reviewDeadline : Option Int
deriving Repr, DecidableEq

/-- Embeds `updateLecture` (part_011 lines 120-230): authorize, then write the
supplied fields (`isReviewed` is written verbatim when present in the body);
the Sequelize `beforeSave` hook then flips an overdue unreviewed result. -/
def updateLecture (db : RelDb) (userId lectureId : Nat)
    (body : LectureUpdateBody) (now : Int) : RelDb × Except ErrorHandler Lecture :=
  match findTeacherByUserId db userId with
  | none => (db, .error teacherNotFoundError)
  | some teacher =>
    match findLectureById db lectureId with
    | none => (db, .error lectureNotFoundError)
    | some lecture =>
      match findCourseOwned db lecture.courseId teacher.id with
      | none => (db, .error lectureUpdateForbiddenError)
      | some _ =>
        let updated := { lecture with
          title := body.title.getD lecture.title
          content := match body.content with
            | some c => some c
            | none => lecture.content
          isReviewed := body.isReviewed.getD lecture.isReviewed
          reviewDeadline := match body.reviewDeadline with
            | some d => some d
            | none => lecture.reviewDeadline }
        let saved := reviewFlip now updated
        (saveLectureRow db lecture.id saved, .ok saved)

/-- `defaultValue` of `reviewDeadline` in the Sequelize `Lecture` model:
seven days, in epoch milliseconds. -/
def sevenDaysMs : Int := 604800000

/-- Body of `createLecture`: `isReviewed: req.body.isReviewed || false` and
`reviewDeadline` only when supplied. -/
structure CreateLectureBody where
  title : String
  content : Option String
  isReviewed : Option Bool
  reviewDeadline : Option Int
  videoUrl : Option String
deriving Repr, DecidableEq

/-- Embeds `createLecture` (part_011 lines 17-117): authorize, then create the
lecture row.  When the body carries no `reviewDeadline`, the Sequelize model's
`defaultValue` sets it to creation time plus seven days; the `beforeSave` hook
then runs on the new row.  `createdAt` is the creation timestamp.  The video
file-upload branch goes to the storage collaborator and only fills
`videoUrl`/`videoKey`, so only the direct-URL branch is modelled. -/
def createLecture (db : RelDb) (userId : Nat) (courseId : Option Nat)
    (body : CreateLectureBody) (freshId : Nat) (now : Int) :
    RelDb × Except ErrorHandler Lecture :=
  match courseId with
  | none => (db, .error ⟨"Course ID is required", 400⟩)
  | some cid =>
    match findTeacherByUserId db userId with
    | none => (db, .error teacherNotFoundError)
    | some teacher =>
      match findCourseOwned db cid teacher.id with
      | none => (db, .error courseNotFoundOrUnauthorizedError)
      | some course =>
        let lecture : Lecture :=
          { id := freshId
            title := body.title
            content := body.content
            videoUrl := body.videoUrl
            videoKey := none
            courseId := course.id
            isReviewed := body.isReviewed.getD false
            reviewDeadline := some (body.reviewDeadline.getD (now + sevenDaysMs))
            createdAt := now }
        let saved := reviewFlip now lecture
        ({ db with lectures := db.lectures ++ [saved] }, .ok saved)

/-- Embeds `deleteLecture` (part_011 lines 449-525): authorize, then — when the
lecture has a `videoKey` — attempt the blob deletion, catching and logging any
failure (`azureDeleteOk = false` models the collaborator throwing), and in
every case go on to destroy the row and report success. -/
def deleteLecture (db : RelDb) (userId lectureId : Nat) (azureDeleteOk : Bool) :
    RelDb × Except ErrorHandler String :=
  match findTeacherByUserId db userId with
  | none => (db, .error teacherNotFoundError)
  | some teacher =>
    match findLectureById db lectureId with
    | none => (db, .error lectureNotFoundError)
    | some lecture =>
      match findCourseOwned db lecture.courseId teacher.id with
      | none => (db, .error lectureDeleteForbiddenError)
      | some _ =>
        let _blobOutcome : Unit :=
          match lecture.videoKey with
          | some _ => if azureDeleteOk then () else ()
          | none => ()
        ({ db with lectures := db.lectures.filter (fun x => x.id != lecture.id) },
          .ok "Lecture deleted successfully")

/-! ### Lemmas about the review flip -/

theorem reviewFlip_id (now : Int) (l : Lecture) : (reviewFlip now l).id = l.id := by
  unfold reviewFlip
  split <;> rfl

theorem reviewFlip_reviewDeadline (now : Int) (l : Lecture) :
    (reviewFlip now l).reviewDeadline = l.reviewDeadline := by
  unfold reviewFlip
  split <;> rfl

theorem reviewFlip_createdAt (now : Int) (l : Lecture) :
    (reviewFlip now l).createdAt = l.createdAt := by
  unfold reviewFlip
  split <;> rfl

theorem isReviewed_of_not_overdue (now : Int) (l : Lecture)
    (h : overdueUnreviewed now l = false) (d : Int)
    (hd : l.reviewDeadline = some d) (hnow : now ≥ d) : l.isReviewed = true := by
  unfold overdueUnreviewed at h
  rw [hd] at h
  dsimp only at h
  rw [decide_eq_true hnow] at h
  simpa using h

/-- After the flip, a lecture whose deadline has passed is reviewed. -/
theorem reviewFlip_reviewed (now : Int) (x : Lecture) (d : Int)
    (hd : (reviewFlip now x).reviewDeadline = some d) (hnow : now ≥ d) :
    (reviewFlip now x).isReviewed = true := by
  rw [reviewFlip_reviewDeadline] at hd
  unfold reviewFlip
  split
  · rfl
  next hov =>
    have hov' : overdueUnreviewed now x = false := by
      revert hov
      cases overdueUnreviewed now x <;> simp
    exact isReviewed_of_not_overdue now x hov' d hd hnow

/-- `find?` over an update-by-key map: the first hit for the key becomes the
new row. -/
theorem find?_update_of_find? (xs : List Lecture) (lid : Nat) (l' : Lecture)
    (hid : l'.id = lid) (a : Lecture)
    (h : xs.find? (fun x => x.id == lid) = some a) :
    (xs.map (fun x => if x.id == lid then l' else x)).find?
      (fun x => x.id == lid) = some l' := by
  induction xs with
  | nil => cases h
  | cons x rest ih =>
    by_cases hx : (x.id == lid) = true
    · have hpl : (l'.id == lid) = true := by simp [hid]
      simp only [List.map_cons, hx, if_true, List.find?_cons, hpl]
    · have hx' : (x.id == lid) = false := by
        revert hx
        cases x.id == lid <;> simp
      simp only [List.find?_cons, hx'] at h ⊢
      simp only [List.map_cons, hx', Bool.false_eq_true, if_false, List.find?_cons] at h ⊢
      exact ih h

/-! ### C2: lazy review flip on reads -/

/-- Concrete database for C2 and the lecture-read theorems: a teacher
(user 100), an enrolled student (user 200), and one unreviewed lecture whose
review deadline (5) has already passed at read time 10. -/
def exDbC2 : RelDb :=
  { teachers := [⟨1, 100, "t@example.com"⟩]
    students := [⟨10, 200, some 1, some "t@example.com"⟩]
    courses := [⟨20, "Algebra", "about", 5, 1⟩]
    enrollments := [⟨10, 20, 0⟩]
    lectures := [⟨30, "L1", none, none, none, 20, false, some 5, 0⟩] }

/-- C2 counterexample: lecture 30 has `reviewDeadline = 5` and is stored
unreviewed; at `now = 10 ≥ 5` the enrolled student's course-list read succeeds
but returns a payload without the lecture and leaves the stored row
unreviewed — the claim's "any read ... returns isReviewed == true, flipping
and persisting" fails on the student list path. -/
theorem getCourseLecturesByStudents_no_flip_counterexample :
    (getCourseLecturesByStudents exDbC2 200 20).2 = .ok [] ∧
    (getCourseLecturesByStudents exDbC2 200 20).1 = exDbC2 ∧
    findLectureById exDbC2 30 =
      some ⟨30, "L1", none, none, none, 20, false, some 5, 0⟩ ∧
    overdueUnreviewed 10 ⟨30, "L1", none, none, none, 20, false, some 5, 0⟩ = true := by
  constructor
  · rfl
  constructor
  · rfl
  constructor
  · rfl
  · decide

/-- C2 (amended): a successful single-lecture read (any role) returns the
lecture flipped to reviewed whenever its deadline has passed, and persists the
flip; the teacher course-list read returns every overdue lecture flipped (and
persists the flips); the student course-list read changes nothing and returns
only lectures already stored as reviewed; and a student single-lecture read of
a stored-unreviewed lecture fails with the not-yet-available error even when
the deadline has passed. -/
theorem lectureRead_flip_spec (db : RelDb) (userId lectureId courseId : Nat)
    (now : Int) (role : Role) :
    (∀ db' l, getLectureById db userId role lectureId now = (db', .ok l) →
      (∀ d, l.reviewDeadline = some d → now ≥ d → l.isReviewed = true) ∧
      findLectureById db' lectureId = some l) ∧
    (∀ db' ls, getCourseLectures db userId courseId now = (db', .ok ls) →
      (∀ l ∈ ls, ∀ d, l.reviewDeadline = some d → now ≥ d → l.isReviewed = true) ∧
      (∀ l' ∈ db'.lectures, l'.courseId = courseId →
        ∀ d, l'.reviewDeadline = some d → now ≥ d → l'.isReviewed = true)) ∧
    (∀ db' ls, getCourseLecturesByStudents db userId courseId = (db', .ok ls) →
      db' = db ∧ ∀ l ∈ ls, l.isReviewed = true) ∧
    (∀ lecture student e, findLectureById db lectureId = some lecture →
      findStudentByUserId db userId = some student →
      findEnrollment db student.id lecture.courseId = some e →
      lecture.isReviewed = false →
      getLectureById db userId .student lectureId now =
        (db, .error lectureNotAvailableError)) := by
  refine ⟨?_, ?_, ?_, ?_⟩
  · intro db' l h
    unfold getLectureById at h
    split at h
    · cases h
    next lecture hfind =>
      split at h
      · cases h
      · split at h
        next hov =>
          injection h with h1 h2
          injection h2 with h2
          subst h2
          constructor
          · intro d _ _; rfl
          · have hbeq : (lecture.id == lectureId) = true := by
              have := List.find?_some hfind
              simpa using this
            have hid : lecture.id = lectureId := by simpa using hbeq
            subst h1
            unfold findLectureById saveLectureRow
            rw [← hid]
            exact find?_update_of_find? db.lectures lecture.id
              { lecture with isReviewed := true } rfl lecture (by rw [hid]; exact hfind)
        next hov =>
          injection h with h1 h2
          injection h2 with h2
          subst h2
          have hov' : overdueUnreviewed now lecture = false := by
            revert hov
            cases overdueUnreviewed now lecture <;> simp
          constructor
          · intro d hd hnow
            exact isReviewed_of_not_overdue now lecture hov' d hd hnow
          · rw [← h1]; exact hfind
  · intro db' ls h
    unfold getCourseLectures at h
    split at h
    · cases h
    · split at h
      · cases h
      next course hcourse =>
        injection h with h1 h2
        injection h2 with h2
        subst h2
        have hcid : course.id = courseId := by
          have := List.find?_some hcourse
          simp only [Bool.and_eq_true] at this
          simpa using this.1
        constructor
        · intro l hl d hd hnow
          rw [List.mem_map] at hl
          obtain ⟨x, _, hx⟩ := hl
          subst hx
          exact reviewFlip_reviewed now x d hd hnow
        · intro l' hl' hcid' d hd hnow
          rw [← h1] at hl'
          dsimp only at hl'
          rw [List.mem_map] at hl'
          obtain ⟨x, _, hx⟩ := hl'
          by_cases hxc : (x.courseId == course.id) = true
          · rw [if_pos hxc] at hx
            subst hx
            exact reviewFlip_reviewed now x d hd hnow
          · rw [if_neg hxc] at hx
            subst hx
            exact absurd (by simp [hcid', hcid]) hxc
  · intro db' ls h
    unfold getCourseLecturesByStudents at h
    split at h
    · cases h
    · split at h
      · cases h
      · injection h with h1 h2
        injection h2 with h2
        subst h2
        refine ⟨h1.symm, ?_⟩
        intro l hl
        rw [List.mem_filter] at hl
        have := hl.2
        simp only [Bool.and_eq_true] at this
        exact this.2
  · intro lecture student e hfind hstud henr hunrev
    have hauth : lectureReadAuth db userId .student lecture =
        .error lectureNotAvailableError := by
      unfold lectureReadAuth
      rw [hstud]
      dsimp only
      rw [henr]
      dsimp only
      rw [hunrev]
      rfl
    unfold getLectureById
    rw [hfind]
    dsimp only
    rw [hauth]

/-- Witness for the amended C2: on the concrete database the teacher's
single-lecture read at time 10 returns lecture 30 flipped to reviewed and
persists the flip, and the teacher's course-list read flips the stored row
as well. -/
theorem lectureRead_flip_spec_witness :
    (⟨30, "L1", none, none, none, 20, true, some 5, 0⟩ : Lecture).isReviewed = true ∧
    findLectureById (getLectureById exDbC2 100 .teacher 30 10).1 30 =
      some ⟨30, "L1", none, none, none, 20, true, some 5, 0⟩ ∧
    findLectureById (getCourseLectures exDbC2 100 20 10).1 30 =
      some ⟨30, "L1", none, none, none, 20, true, some 5, 0⟩ := by
  have h := (lectureRead_flip_spec exDbC2 100 30 20 10 .teacher).1
      (getLectureById exDbC2 100 .teacher 30 10).1
      ⟨30, "L1", none, none, none, 20, true, some 5, 0⟩ rfl
  have h2 := (lectureRead_flip_spec exDbC2 100 30 20 10 .teacher).2.1
      (getCourseLectures exDbC2 100 20 10).1
      [⟨30, "L1", none, none, none, 20, true, some 5, 0⟩] rfl
  have h3 := h2.2 ⟨30, "L1", none, none, none, 20, true, some 5, 0⟩
      (by decide) rfl 5 rfl (by decide)
  exact ⟨h3, h.2, rfl⟩

/-! ### C5: monotonicity of the review state -/

/-- Pointwise review-monotonicity between two states of the lecture table:
rows keep their positions, and no row goes from reviewed back to unreviewed. -/
def reviewMonotone (before after : List Lecture) : Prop :=
  List.Forall₂ (fun a b => a.isReviewed = true → b.isReviewed = true) before after

theorem reviewMonotone_refl (xs : List Lecture) : reviewMonotone xs xs := by
  induction xs with
  | nil => exact List.Forall₂.nil
  | cons x rest ih => exact List.Forall₂.cons (fun h => h) ih

theorem reviewMonotone_map (xs : List Lecture) (f : Lecture → Lecture)
    (hf : ∀ x, x.isReviewed = true → (f x).isReviewed = true) :
    reviewMonotone xs (xs.map f) := by
  induction xs with
  | nil => exact List.Forall₂.nil
  | cons x rest ih => exact List.Forall₂.cons (hf x) ih

theorem reviewFlip_mono (now : Int) (x : Lecture)
    (h : x.isReviewed = true) : (reviewFlip now x).isReviewed = true := by
  unfold reviewFlip
  split
  · rfl
  · exact h

/-- The state after `getLectureById` is either unchanged or a single-row
flip-to-reviewed. -/
theorem getLectureById_state (db : RelDb) (userId : Nat) (role : Role)
    (lectureId : Nat) (now : Int) :
    (getLectureById db userId role lectureId now).1 = db ∨
    ∃ lec, findLectureById db lectureId = some lec ∧
      (getLectureById db userId role lectureId now).1 =
        saveLectureRow db lec.id { lec with isReviewed := true } := by
  unfold getLectureById
  cases hf : findLectureById db lectureId with
  | none => left; rfl
  | some lec =>
    dsimp only
    cases ha : lectureReadAuth db userId role lec with
    | error e => left; rfl
    | ok u =>
      dsimp only
      by_cases hov : overdueUnreviewed now lec = true
      · right
        refine ⟨lec, rfl, ?_⟩
        rw [if_pos hov]
      · left
        rw [if_neg hov]

/-- The state after `getCourseLectures` is either unchanged or the per-course
lazy flip map. -/
theorem getCourseLectures_state (db : RelDb) (userId courseId : Nat) (now : Int) :
    (getCourseLectures db userId courseId now).1 = db ∨
    ∃ cid, (getCourseLectures db userId courseId now).1 =
      { db with lectures := db.lectures.map (fun l =>
          if l.courseId == cid then reviewFlip now l else l) } := by
  unfold getCourseLectures
  cases ht : findTeacherByUserId db userId with
  | none => left; rfl
  | some teacher =>
    dsimp only
    cases hc : findCourseOwned db courseId teacher.id with
    | none => left; rfl
    | some course =>
      right
      exact ⟨course.id, rfl⟩

/-- The student list read never writes. -/
theorem getCourseLecturesByStudents_state (db : RelDb) (userId courseId : Nat) :
    (getCourseLecturesByStudents db userId courseId).1 = db := by
  unfold getCourseLecturesByStudents
  cases hs : findStudentByUserId db userId with
  | none => rfl
  | some student =>
    dsimp only
    cases he : findEnrollment db student.id courseId with
    | none => rfl
    | some e => rfl

/-- The state after the bulk sweep is either unchanged or the conditional
set-to-reviewed map. -/
theorem updateAllLectureReviewStatuses_state (db : RelDb) (userId courseId : Nat)
    (now : Int) :
    (updateAllLectureReviewStatuses db userId courseId now).1 = db ∨
    ∃ cid, (updateAllLectureReviewStatuses db userId courseId now).1 =
      { db with lectures := db.lectures.map (fun l =>
          if sweepCond cid now l then { l with isReviewed := true } else l) } := by
  unfold updateAllLectureReviewStatuses
  cases ht : findTeacherByUserId db userId with
  | none => left; rfl
  | some teacher =>
    dsimp only
    cases hc : findCourseOwned db courseId teacher.id with
    | none => left; rfl
    | some course =>
      right
      exact ⟨course.id, rfl⟩

/-- The state after `updateLectureReviewStatus` is either unchanged or the
found row replaced by the written-and-hooked value. -/
theorem updateLectureReviewStatus_state (db : RelDb) (userId lectureId : Nat)
    (body : ReviewStatusBody) (now : Int) :
    (updateLectureReviewStatus db userId lectureId body now).1 = db ∨
    ∃ lec, findLectureById db lectureId = some lec ∧
      (updateLectureReviewStatus db userId lectureId body now).1 =
        saveLectureRow db lec.id (reviewFlip now { lec with
          isReviewed := body.isReviewed.getD lec.isReviewed
          reviewDeadline := match body.reviewDeadline with
            | some d => some d
            | none => lec.reviewDeadline }) := by
  unfold updateLectureReviewStatus
  cases ht : findTeacherByUserId db userId with
  | none => left; rfl
  | some teacher =>
    dsimp only
    cases hf : findLectureById db lectureId with
    | none => left; rfl
    | some lec =>
      dsimp only
      cases hc : findCourseOwned db lec.courseId teacher.id with
      | none => left; rfl
      | some course =>
        right
        exact ⟨lec, rfl, rfl⟩

/-- The state after `updateLecture` is either unchanged or the found row
replaced by the written-and-hooked value. -/
theorem updateLecture_state (db : RelDb) (userId lectureId : Nat)
    (body : LectureUpdateBody) (now : Int) :
    (updateLecture db userId lectureId body now).1 = db ∨
    ∃ lec, findLectureById db lectureId = some lec ∧
      (updateLecture db userId lectureId body now).1 =
        saveLectureRow db lec.id (reviewFlip now { lec with
          title := body.title.getD lec.title
          content := match body.content with
            | some c => some c
            | none => lec.content
          isReviewed := body.isReviewed.getD lec.isReviewed
          reviewDeadline := match body.reviewDeadline with
            | some d => some d
            | none => lec.reviewDeadline }) := by
  unfold updateLecture
  cases ht : findTeacherByUserId db userId with
  | none => left; rfl
  | some teacher =>
    dsimp only
    cases hf : findLectureById db lectureId with
    | none => left; rfl
    | some lec =>
      dsimp only
      cases hc : findCourseOwned db lec.courseId teacher.id with
      | none => left; rfl
      | some course =>
        right
        exact ⟨lec, rfl, rfl⟩

/-- Concrete database for C5: a teacher (user 100) owning course 20 with one
reviewed lecture (id 30) whose review deadline is unset. -/
def exDbC5 : RelDb :=
  { teachers := [⟨1, 100, "t@example.com"⟩]
    students := []
    courses := [⟨20, "Algebra", "about", 5, 1⟩]
    enrollments := []
    lectures := [⟨30, "L1", none, none, none, 20, true, none, 0⟩] }

/-- C5 counterexample: lecture 30 is stored reviewed; the owning teacher's
explicit review update with body `{isReviewed: false}` succeeds and persists
`isReviewed = false` — the API does expose a reviewed → unreviewed
transition. -/
theorem updateLectureReviewStatus_unreview_counterexample :
    (findLectureById exDbC5 30).map Lecture.isReviewed = some true ∧
    (updateLectureReviewStatus exDbC5 100 30 ⟨some false, none⟩ 50).2 =
      .ok ⟨30, "L1", none, none, none, 20, false, none, 0⟩ ∧
    findLectureById (updateLectureReviewStatus exDbC5 100 30 ⟨some false, none⟩ 50).1 30 =
      some ⟨30, "L1", none, none, none, 20, false, none, 0⟩ :=
  ⟨rfl, rfl, rfl⟩

/-- C5 (amended): the read paths and the bulk sweep never transition any
lecture from reviewed back to unreviewed, and the explicit update operations
preserve a reviewed lecture unless the request body supplies
`isReviewed = false` — but they write the supplied value verbatim, so a body
with `isReviewed = false` does un-review a reviewed lecture (see the
counterexample). -/
theorem lectureReview_monotone_spec (db : RelDb) (userId lectureId courseId : Nat)
    (now : Int) (role : Role) (rbody : ReviewStatusBody) (ubody : LectureUpdateBody) :
    reviewMonotone db.lectures (getLectureById db userId role lectureId now).1.lectures ∧
    reviewMonotone db.lectures (getCourseLectures db userId courseId now).1.lectures ∧
    reviewMonotone db.lectures (getCourseLecturesByStudents db userId courseId).1.lectures ∧
    reviewMonotone db.lectures (updateAllLectureReviewStatuses db userId courseId now).1.lectures ∧
    (∀ lec lec', findLectureById db lectureId = some lec → lec.isReviewed = true →
      rbody.isReviewed ≠ some false →
      findLectureById (updateLectureReviewStatus db userId lectureId rbody now).1
        lectureId = some lec' →
      lec'.isReviewed = true) ∧
    (∀ lec lec', findLectureById db lectureId = some lec → lec.isReviewed = true →
      ubody.isReviewed ≠ some false →
      findLectureById (updateLecture db userId lectureId ubody now).1
        lectureId = some lec' →
      lec'.isReviewed = true) := by
  refine ⟨?_, ?_, ?_, ?_, ?_, ?_⟩
  · rcases getLectureById_state db userId role lectureId now with h | ⟨lec, _, h⟩
    · rw [h]; exact reviewMonotone_refl _
    · rw [h]
      unfold saveLectureRow
      exact reviewMonotone_map _ _ (fun x hx => by
        split
        · rfl
        · exact hx)
  · rcases getCourseLectures_state db userId courseId now with h | ⟨cid, h⟩
    · rw [h]; exact reviewMonotone_refl _
    · rw [h]
      exact reviewMonotone_map _ _ (fun x hx => by
        split
        · exact reviewFlip_mono now x hx
        · exact hx)
  · rw [getCourseLecturesByStudents_state db userId courseId]
    exact reviewMonotone_refl _
  · rcases updateAllLectureReviewStatuses_state db userId courseId now with h | ⟨cid, h⟩
    · rw [h]; exact reviewMonotone_refl _
    · rw [h]
      exact reviewMonotone_map _ _ (fun x hx => by
        split
        · rfl
        · exact hx)
  · intro lec lec' hfind hrev hnb hfind'
    rcases updateLectureReviewStatus_state db userId lectureId rbody now with h | ⟨lec0, hf0, h⟩
    · rw [h, hfind] at hfind'
      injection hfind' with hfind'
      rw [← hfind']
      exact hrev
    · rw [hfind] at hf0
      injection hf0 with hf0
      subst hf0
      have hbeq : (lec.id == lectureId) = true := by
        have := List.find?_some hfind
        simpa using this
      have hid : lec.id = lectureId := by simpa using hbeq
      have hsrev : (reviewFlip now { lec with
          isReviewed := rbody.isReviewed.getD lec.isReviewed
          reviewDeadline := match rbody.reviewDeadline with
            | some d => some d
            | none => lec.reviewDeadline }).isReviewed = true := by
        apply reviewFlip_mono
        cases hb : rbody.isReviewed with
        | none => simpa [hb] using hrev
        | some b =>
          cases b with
          | false => exact absurd hb hnb
          | true => simp [hb]
      rw [h] at hfind'
      unfold findLectureById saveLectureRow at hfind'
      rw [← hid] at hfind'
      rw [find?_update_of_find? db.lectures lec.id _
        (by rw [reviewFlip_id]) lec (by rw [hid]; exact hfind)] at hfind'
      injection hfind' with hfind'
      rw [← hfind']
      exact hsrev
  · intro lec lec' hfind hrev hnb hfind'
    rcases updateLecture_state db userId lectureId ubody now with h | ⟨lec0, hf0, h⟩
    · rw [h, hfind] at hfind'
      injection hfind' with hfind'
      rw [← hfind']
      exact hrev
    · rw [hfind] at hf0
      injection hf0 with hf0
      subst hf0
      have hbeq : (lec.id == lectureId) = true := by
        have := List.find?_some hfind
        simpa using this
      have hid : lec.id = lectureId := by simpa using hbeq
      have hsrev : (reviewFlip now { lec with
          title := ubody.title.getD lec.title
          content := match ubody.content with
            | some c => some c
            | none => lec.content
          isReviewed := ubody.isReviewed.getD lec.isReviewed
          reviewDeadline := match ubody.reviewDeadline with
            | some d => some d
            | none => lec.reviewDeadline }).isReviewed = true := by
        apply reviewFlip_mono
        cases hb : ubody.isReviewed with
        | none => simpa [hb] using hrev
        | some b =>
          cases b with
          | false => exact absurd hb hnb
          | true => simp [hb]
      rw [h] at hfind'
      unfold findLectureById saveLectureRow at hfind'
      rw [← hid] at hfind'
      rw [find?_update_of_find? db.lectures lec.id _
        (by rw [reviewFlip_id]) lec (by rw [hid]; exact hfind)] at hfind'
      injection hfind' with hfind'
      rw [← hfind']
      exact hsrev

/-- Witness for the amended C5: applying the monotonicity theorem on the
concrete reviewed-lecture database, a review update whose body carries
`isReviewed = true` keeps lecture 30 reviewed. -/
theorem lectureReview_monotone_spec_witness :
    (⟨30, "L1", none, none, none, 20, true, some 7, 0⟩ : Lecture).isReviewed = true :=
  (lectureReview_monotone_spec exDbC5 100 30 20 50 .teacher ⟨some true, some 7⟩
      ⟨none, none, none, none⟩).2.2.2.2.1
    ⟨30, "L1", none, none, none, 20, true, none, 0⟩
    ⟨30, "L1", none, none, none, 20, true, some 7, 0⟩
    rfl rfl (by decide) rfl

/-! ### C8: best-effort blob deletion -/

/-- Concrete database for C8: a teacher (user 100) owning course 20 with one
lecture (id 30) that has a non-null `videoKey`. -/
def exDbC8 : RelDb :=
  { teachers := [⟨1, 100, "t@example.com"⟩]
    students := []
    courses := [⟨20, "Algebra", "about", 5, 1⟩]
    enrollments := []
    lectures := [⟨30, "L1", none, some "https://blob/v", some "vkey", 20, false, none, 0⟩] }

/-- C8: the result of `deleteLecture` does not depend on the blob-delete
collaborator's outcome (a throw is caught and only logged), and whenever the
permission checks pass — in particular for a lecture whose `videoKey` is
non-null and whose blob delete throws — the lecture row is still deleted and
the operation reports success. -/
theorem deleteLecture_blob_best_effort (db : RelDb) (userId lectureId : Nat) :
    deleteLecture db userId lectureId false = deleteLecture db userId lectureId true ∧
    (∀ teacher lecture course k,
      findTeacherByUserId db userId = some teacher →
      findLectureById db lectureId = some lecture →
      lecture.videoKey = some k →
      findCourseOwned db lecture.courseId teacher.id = some course →
      (deleteLecture db userId lectureId false).2 = .ok "Lecture deleted successfully" ∧
      (deleteLecture db userId lectureId false).1.lectures =
        db.lectures.filter (fun x => x.id != lecture.id)) := by
  constructor
  · unfold deleteLecture
    rfl
  · intro teacher lecture course k ht hf hk hc
    unfold deleteLecture
    rw [ht]
    dsimp only
    rw [hf]
    dsimp only
    rw [hc]
    exact ⟨rfl, rfl⟩

/-- Witness for C8: on the concrete database, deleting lecture 30 (videoKey
present) with a throwing blob collaborator still deletes the row and succeeds. -/
theorem deleteLecture_blob_best_effort_witness :
    (deleteLecture exDbC8 100 30 false).2 = .ok "Lecture deleted successfully" ∧
    (deleteLecture exDbC8 100 30 false).1.lectures =
      exDbC8.lectures.filter (fun x => x.id != 30) := by
  have h := (deleteLecture_blob_best_effort exDbC8 100 30).2
    ⟨1, 100, "t@example.com"⟩
    ⟨30, "L1", none, some "https://blob/v", some "vkey", 20, false, none, 0⟩
    ⟨20, "Algebra", "about", 5, 1⟩ "vkey" rfl rfl rfl rfl
  exact h

/-! ### C9: default review deadline -/

/-- C9: a lecture created without an explicit `reviewDeadline` in the body is
stored with `reviewDeadline = createdAt + 7 days` (not null). -/
theorem createLecture_default_deadline (db : RelDb) (userId : Nat)
    (courseId : Option Nat) (body : CreateLectureBody) (freshId : Nat) (now : Int)
    (hnone : body.reviewDeadline = none) :
    ∀ db' l, createLecture db userId courseId body freshId now = (db', .ok l) →
      l.createdAt = now ∧ l.reviewDeadline = some (l.createdAt + sevenDaysMs) := by
  intro db' l h
  unfold createLecture at h
  split at h
  · cases h
  next cid =>
    split at h
    · cases h
    next teacher ht =>
      split at h
      · cases h
      next course hc =>
        injection h with h1 h2
        injection h2 with h2
        subst h2
        rw [reviewFlip_createdAt, reviewFlip_reviewDeadline]
        dsimp only
        rw [hnone]
        exact ⟨rfl, rfl⟩

/-- Witness for C9: creating a lecture at time 5 with no `reviewDeadline` in
the body stores `reviewDeadline = 5 + 604800000`. -/
theorem createLecture_default_deadline_witness :
    (⟨31, "New", none, none, none, 20, false, some 604800005, 5⟩ : Lecture).createdAt = 5 ∧
    (⟨31, "New", none, none, none, 20, false, some 604800005, 5⟩ : Lecture).reviewDeadline =
      some ((⟨31, "New", none, none, none, 20, false, some 604800005, 5⟩ : Lecture).createdAt
        + sevenDaysMs) :=
  createLecture_default_deadline exDbC5 100 (some 20)
    ⟨"New", none, none, none, none⟩ 31 5 rfl
    (createLecture exDbC5 100 (some 20) ⟨"New", none, none, none, none⟩ 31 5).1
    ⟨31, "New", none, none, none, 20, false, some 604800005, 5⟩ rfl

/-! ### Teacher controller (`controllers/teacherController.js`): course
creation with auto-enrollment, and student assignment -/

/-- Embeds `StudentCourse.create({studentId, courseId, enrollmentDate})`
together with the table's unique constraint on `(studentId, courseId)`
(`part_003` lines 74-82): inserting a duplicate raises a
`SequelizeUniqueConstraintError`, surfaced here as its message string. -/
def createEnrollmentRow (enrollments : List StudentCourse) (sid cid : Nat)
    (now : Int) : Except String (List StudentCourse) :=
  if enrollments.any (fun e => e.studentId == sid && e.courseId == cid) then
    .error "Validation error"
  else
    .ok (enrollments ++ [⟨sid, cid, now⟩])

/-- The `Promise.all` of `StudentCourse.create` calls in `createCourse`
(lines 834-847): enroll every listed student in the course; the first
constraint violation aborts the whole transaction. -/
def enrollStudentsInCourse (enrollments : List StudentCourse)
    (studentIds : List Nat) (cid : Nat) (now : Int) :
    Except String (List StudentCourse) :=
  match studentIds with
  | [] => .ok enrollments
  | sid :: rest =>
    match createEnrollmentRow enrollments sid cid now with
    | .error e => .error e
    | .ok enrollments2 => enrollStudentsInCourse enrollments2 rest cid now

/-- The `Promise.all` of `StudentCourse.create` calls in `assignStudent`
(lines 112-126): enroll the student in every listed course; the first
constraint violation aborts the whole transaction. -/
def enrollStudentInCourses (enrollments : List StudentCourse) (sid : Nat)
    (courseIds : List Nat) (now : Int) : Except String (List StudentCourse) :=
  match courseIds with
  | [] => .ok enrollments
  | cid :: rest =>
    match createEnrollmentRow enrollments sid cid now with
    | .error e => .error e
    | .ok enrollments2 => enrollStudentInCourses enrollments2 sid rest now

/-- One entry of `req.body.lectures` in `createCourse`; note the source writes
`reviewDeadline: lectureData.reviewDeadline || null` — an explicit null, so the
model default does not apply on this path. -/
structure CourseLectureInput where
  title : String
  content : Option String
  videoUrl : Option String
  isReviewed : Option Bool
  reviewDeadline : Option Int
deriving Repr, DecidableEq

/-- Body of `createCourse`. -/
structure CreateCourseBody where
  title : String
  aboutCourse : String
  semesterId : Nat
  lectures : List CourseLectureInput
deriving Repr, DecidableEq

/-- Embeds `createCourse` (`teacherController.js` lines 768-883): find the
teacher (404), create the course, create any initial lectures, then find every
student with this teacher's id and enroll each in the new course with
`enrollmentDate = new Date()`, all inside one transaction; any error rolls the
whole transaction back (the catch wraps the message with status 400). -/
def createCourse (db : RelDb) (userId : Nat) (body : CreateCourseBody)
    (freshCourseId : Nat) (freshLectureIds : List Nat) (now : Int) :
    RelDb × Except ErrorHandler Course :=
  match findTeacherByUserId db userId with
  | none => (db, .error teacherNotFoundError)
  | some teacher =>
    let course : Course :=
      ⟨freshCourseId, body.title, body.aboutCourse, body.semesterId, teacher.id⟩
    let newLectures := (body.lectures.zip freshLectureIds).map (fun p =>
      reviewFlip now
        { id := p.2
          title := p.1.title
          content := p.1.content
          videoUrl := p.1.videoUrl
          videoKey := none
          courseId := course.id
          isReviewed := p.1.isReviewed.getD false
          reviewDeadline := p.1.reviewDeadline
          createdAt := now })
    let sids := (db.students.filter
      (fun s => s.teacherId == some teacher.id)).map Student.id
    match enrollStudentsInCourse db.enrollments sids course.id now with
    | .error msg => (db, .error ⟨msg, 400⟩)
    | .ok enrollments2 =>
      ({ db with
          courses := db.courses ++ [course]
          lectures := db.lectures ++ newLectures
          enrollments := enrollments2 }, .ok course)

def studentNotFoundOrAssignedError : ErrorHandler :=
  ⟨"Student not found or already assigned", 404⟩

/-- Teacher resolution of `assignStudent` (lines 47-63): an admin supplying a
`teacherId` gets that teacher by primary key; everyone else (including an
admin without one) resolves their own teacher profile. -/
def assignTeacherLookup (db : RelDb) (callerUserId : Nat) (role : Role)
    (bodyTeacherId : Option Nat) : Option Teacher :=
  match role, bodyTeacherId with
  | .admin, some tid => db.teachers.find? (fun t => t.id == tid)
  | _, _ => findTeacherByUserId db callerUserId

/-- Student resolution of `assignStudent` (lines 70-89): an admin may pick any
student; a teacher may only claim a student whose `teacherId` is null. -/
def assignStudentLookup (db : RelDb) (role : Role) (studentId : Nat) :
    Option Student :=
  match role with
  | .admin => db.students.find? (fun s => s.id == studentId)
  | _ => db.students.find? (fun s => s.id == studentId && s.teacherId == none)

/-- Embeds `assignStudent` (`teacherController.js` lines 43-150): resolve
teacher and student, write the student's `teacherId`/`teacherEmail`, then
`StudentCourse.create` one row per course owned by the teacher — with no
duplicate check — inside one transaction; any error (in particular a unique
constraint violation from an already-existing enrollment) rolls the whole
transaction back and surfaces as status 500.  On success the payload carries
`coursesEnrolled`, the number of the teacher's courses. -/
def assignStudent (db : RelDb) (callerUserId : Nat) (role : Role)
    (bodyTeacherId : Option Nat) (studentId : Nat) (now : Int) :
    RelDb × Except ErrorHandler Nat :=
  match assignTeacherLookup db callerUserId role bodyTeacherId with
  | none => (db, .error teacherNotFoundError)
  | some teacher =>
    match assignStudentLookup db role studentId with
    | none => (db, .error studentNotFoundOrAssignedError)
    | some student =>
      let student2 := { student with
        teacherId := some teacher.id
        teacherEmail := some teacher.email }
      let students2 := db.students.map (fun s =>
        if s.id == student.id then student2 else s)
      let teacherCourses := db.courses.filter (fun c => c.teacherId == teacher.id)
      match enrollStudentInCourses db.enrollments student.id
          (teacherCourses.map Course.id) now with
      | .error msg => (db, .error ⟨msg, 500⟩)
      | .ok enrollments2 =>
        ({ db with students := students2, enrollments := enrollments2 },
          .ok teacherCourses.length)

/-! ### Fold lemmas for the enrollment loops -/

theorem enrollStudentsInCourse_ok (sids : List Nat) (cid : Nat) (now : Int) :
    ∀ enrollments : List StudentCourse, sids.Nodup →
      (∀ sid ∈ sids,
        enrollments.any (fun e => e.studentId == sid && e.courseId == cid) = false) →
      enrollStudentsInCourse enrollments sids cid now =
        .ok (enrollments ++ sids.map (fun sid => ⟨sid, cid, now⟩)) := by
  induction sids with
  | nil =>
    intro enrollments _ _
    simp [enrollStudentsInCourse]
  | cons sid rest ih =>
    intro enrollments hnodup hno
    have hhead := hno sid (List.mem_cons_self _ _)
    have hrest : ∀ sid2 ∈ rest,
        ((enrollments ++ [(⟨sid, cid, now⟩ : StudentCourse)]).any
          (fun e => e.studentId == sid2 && e.courseId == cid)) = false := by
      intro sid2 hsid2
      have h1 := hno sid2 (List.mem_cons_of_mem _ hsid2)
      have hne : sid ≠ sid2 := by
        intro hcontra
        exact (List.nodup_cons.mp hnodup).1 (hcontra ▸ hsid2)
      simp [List.any_append, h1, hne]
    simp only [enrollStudentsInCourse, createEnrollmentRow]
    rw [if_neg (by simp [hhead])]
    dsimp only
    rw [ih (enrollments ++ [(⟨sid, cid, now⟩ : StudentCourse)]) (List.Nodup.of_cons hnodup) hrest]
    simp

theorem enrollStudentInCourses_ok (sid : Nat) (cids : List Nat) (now : Int) :
    ∀ enrollments : List StudentCourse, cids.Nodup →
      (∀ cid ∈ cids,
        enrollments.any (fun e => e.studentId == sid && e.courseId == cid) = false) →
      enrollStudentInCourses enrollments sid cids now =
        .ok (enrollments ++ cids.map (fun cid => ⟨sid, cid, now⟩)) := by
  induction cids with
  | nil =>
    intro enrollments _ _
    simp [enrollStudentInCourses]
  | cons cid rest ih =>
    intro enrollments hnodup hno
    have hhead := hno cid (List.mem_cons_self _ _)
    have hrest : ∀ cid2 ∈ rest,
        ((enrollments ++ [(⟨sid, cid, now⟩ : StudentCourse)]).any
          (fun e => e.studentId == sid && e.courseId == cid2)) = false := by
      intro cid2 hcid2
      have h1 := hno cid2 (List.mem_cons_of_mem _ hcid2)
      have hne : cid ≠ cid2 := by
        intro hcontra
        exact (List.nodup_cons.mp hnodup).1 (hcontra ▸ hcid2)
      simp [List.any_append, h1, hne]
    simp only [enrollStudentInCourses, createEnrollmentRow]
    rw [if_neg (by simp [hhead])]
    dsimp only
    rw [ih (enrollments ++ [(⟨sid, cid, now⟩ : StudentCourse)]) (List.Nodup.of_cons hnodup) hrest]
    simp

theorem enrollStudentInCourses_error (sid : Nat) (cids : List Nat) (now : Int) :
    ∀ enrollments : List StudentCourse,
      (∃ cid ∈ cids,
        enrollments.any (fun e => e.studentId == sid && e.courseId == cid) = true) →
      enrollStudentInCourses enrollments sid cids now = .error "Validation error" := by
  induction cids with
  | nil =>
    intro enrollments h
    simp at h
  | cons cid rest ih =>
    intro enrollments h
    by_cases hc : enrollments.any (fun e => e.studentId == sid && e.courseId == cid) = true
    · simp only [enrollStudentInCourses, createEnrollmentRow]
      rw [if_pos hc]
    · obtain ⟨cid2, hmem, hany⟩ := h
      have hcid2 : cid2 ∈ rest := by
        rcases List.mem_cons.mp hmem with hcontra | hmem2
        · exact absurd (hcontra ▸ hany) hc
        · exact hmem2
      simp only [enrollStudentInCourses, createEnrollmentRow]
      rw [if_neg hc]
      dsimp only
      apply ih
      refine ⟨cid2, hcid2, ?_⟩
      rw [List.any_append, hany]
      rfl

/-! ### C6: course creation auto-enrolls the teacher's students -/

/-- C6: creating a course with a fresh course id enrolls, inside the same
transaction, exactly the students whose `teacherId` is the creating teacher's
id, each with `enrollmentDate = now`: the new course's roster (studentId with
enrollment date) equals the teacher's student set. -/
theorem createCourse_roster (db : RelDb) (userId : Nat) (body : CreateCourseBody)
    (freshCourseId : Nat) (freshLectureIds : List Nat) (now : Int)
    (teacher : Teacher)
    (hT : findTeacherByUserId db userId = some teacher)
    (hfresh : ∀ e ∈ db.enrollments, e.courseId ≠ freshCourseId)
    (hids : (db.students.map Student.id).Nodup) :
    ∃ db2, createCourse db userId body freshCourseId freshLectureIds now =
        (db2, .ok ⟨freshCourseId, body.title, body.aboutCourse, body.semesterId, teacher.id⟩) ∧
      (db2.enrollments.filter (fun e => e.courseId == freshCourseId)).map
          (fun e => (e.studentId, e.enrollmentDate)) =
        (db.students.filter (fun s => s.teacherId == some teacher.id)).map
          (fun s => (s.id, now)) := by
  have hsubl : ((db.students.filter
      (fun s => s.teacherId == some teacher.id)).map Student.id).Sublist
        (db.students.map Student.id) :=
    List.Sublist.map _ (List.filter_sublist _)
  have hsids_nodup : ((db.students.filter
      (fun s => s.teacherId == some teacher.id)).map Student.id).Nodup :=
    List.Nodup.sublist hsubl hids
  have hno : ∀ sid ∈ (db.students.filter
      (fun s => s.teacherId == some teacher.id)).map Student.id,
      db.enrollments.any
        (fun e => e.studentId == sid && e.courseId == freshCourseId) = false := by
    intro sid _
    rw [List.any_eq_false]
    intro e he
    simp [hfresh e he]
  unfold createCourse
  rw [hT]
  dsimp only
  rw [enrollStudentsInCourse_ok _ freshCourseId now db.enrollments hsids_nodup hno]
  dsimp only
  refine ⟨_, rfl, ?_⟩
  rw [List.filter_append]
  have h1 : db.enrollments.filter (fun e => e.courseId == freshCourseId) = [] := by
    rw [List.filter_eq_nil_iff]
    intro e he
    simp [hfresh e he]
  have h2 : (((db.students.filter (fun s => s.teacherId == some teacher.id)).map
        Student.id).map (fun sid => (⟨sid, freshCourseId, now⟩ : StudentCourse))).filter
        (fun e => e.courseId == freshCourseId) =
      ((db.students.filter (fun s => s.teacherId == some teacher.id)).map
        Student.id).map (fun sid => (⟨sid, freshCourseId, now⟩ : StudentCourse)) := by
    rw [List.filter_eq_self]
    intro x hx
    rw [List.mem_map] at hx
    obtain ⟨sid, _, hxeq⟩ := hx
    rw [← hxeq]
    simp
  rw [h1, h2, List.nil_append, List.map_map, List.map_map]
  rfl

/-- Concrete database for the C6 witness: a teacher (user 100) with two
students and no courses yet. -/
def exDbC6 : RelDb :=
  { teachers := [⟨1, 100, "t@example.com"⟩]
    students := [⟨10, 200, some 1, some "t@example.com"⟩,
                 ⟨11, 201, some 1, some "t@example.com"⟩]
    courses := []
    enrollments := []
    lectures := [] }

/-- Witness for C6: creating course 20 at time 7 enrolls both of the
teacher's students with enrollment date 7. -/
theorem createCourse_roster_witness :
    ∃ db2, createCourse exDbC6 100 ⟨"C", "about", 5, []⟩ 20 [] 7 =
        (db2, .ok ⟨20, "C", "about", 5, 1⟩) ∧
      (db2.enrollments.filter (fun e => e.courseId == 20)).map
          (fun e => (e.studentId, e.enrollmentDate)) =
        (exDbC6.students.filter (fun s => s.teacherId == some 1)).map
          (fun s => (s.id, 7)) :=
  createCourse_roster exDbC6 100 ⟨"C", "about", 5, []⟩ 20 [] 7
    ⟨1, 100, "t@example.com"⟩ rfl (by decide) (by decide)

/-! ### C7: assigning a student to a teacher -/

/-- Concrete database for the C7 counterexample: student 10 is already
assigned to teacher 1 and already enrolled in teacher 1's course 20. -/
def exDbC7 : RelDb :=
  { teachers := [⟨1, 100, "t@example.com"⟩]
    students := [⟨10, 200, some 1, some "t@example.com"⟩]
    courses := [⟨20, "Algebra", "about", 5, 1⟩]
    enrollments := [⟨10, 20, 0⟩]
    lectures := [] }

/-- C7 counterexample: an admin re-assigns student 10 to teacher 1 while an
enrollment row (10, 20) already exists for one of that teacher's courses; the
claim says the existing row is skipped and the call succeeds, but the code
creates the row unconditionally, hits the unique constraint, fails with a 500
and rolls the whole transaction back. -/
theorem assignStudent_no_skip_counterexample :
    (assignStudent exDbC7 99 .admin (some 1) 10 5).2 =
      .error ⟨"Validation error", 500⟩ ∧
    (assignStudent exDbC7 99 .admin (some 1) 10 5).1 = exDbC7 :=
  ⟨rfl, rfl⟩

/-- C7 (amended): `assignStudent` resolves the teacher and the student, sets
the student's `teacherId`/`teacherEmail`, and creates an enrollment row for
every course owned by the teacher unconditionally, all in one transaction; if
the student already has an enrollment row for any of those courses the unique
constraint fires and the whole operation fails with a 500 and rolls back
(existing rows are not skipped); otherwise it succeeds, appending one row per
course with `enrollmentDate = now` and reporting the number of courses. -/
theorem assignStudent_spec (db : RelDb) (callerUserId : Nat) (role : Role)
    (bodyTeacherId : Option Nat) (studentId : Nat) (now : Int)
    (teacher : Teacher) (student : Student)
    (hT : assignTeacherLookup db callerUserId role bodyTeacherId = some teacher)
    (hS : assignStudentLookup db role studentId = some student) :
    ((∃ cid ∈ (db.courses.filter (fun c => c.teacherId == teacher.id)).map Course.id,
        ∃ e ∈ db.enrollments, e.studentId = student.id ∧ e.courseId = cid) →
      assignStudent db callerUserId role bodyTeacherId studentId now =
        (db, .error ⟨"Validation error", 500⟩)) ∧
    (((db.courses.filter (fun c => c.teacherId == teacher.id)).map Course.id).Nodup →
      (∀ cid ∈ (db.courses.filter (fun c => c.teacherId == teacher.id)).map Course.id,
        ∀ e ∈ db.enrollments, ¬(e.studentId = student.id ∧ e.courseId = cid)) →
      assignStudent db callerUserId role bodyTeacherId studentId now =
        ({ db with
            students := db.students.map (fun s =>
              if s.id == student.id then
                { student with
                  teacherId := some teacher.id
                  teacherEmail := some teacher.email }
              else s)
            enrollments := db.enrollments ++
              ((db.courses.filter (fun c => c.teacherId == teacher.id)).map
                Course.id).map (fun cid => ⟨student.id, cid, now⟩) },
          .ok (db.courses.filter (fun c => c.teacherId == teacher.id)).length)) := by
  constructor
  · intro hcol
    unfold assignStudent
    rw [hT]
    dsimp only
    rw [hS]
    dsimp only
    rw [enrollStudentInCourses_error student.id _ now db.enrollments ?_]
    obtain ⟨cid, hmem, e, he, h1, h2⟩ := hcol
    refine ⟨cid, hmem, ?_⟩
    rw [List.any_eq_true]
    exact ⟨e, he, by simp [h1, h2]⟩
  · intro hnodup hno
    unfold assignStudent
    rw [hT]
    dsimp only
    rw [hS]
    dsimp only
    rw [enrollStudentInCourses_ok student.id _ now db.enrollments hnodup ?_]
    intro cid hcid
    rw [List.any_eq_false]
    intro e he
    have := hno cid hcid e he
    simp only [Bool.and_eq_true, beq_iff_eq]
    exact this

/-- Concrete database for the C7 amended-claim witness: an unassigned student
10 and a teacher (user 100) owning course 20, no enrollments yet. -/
def exDbC7b : RelDb :=
  { teachers := [⟨1, 100, "t@example.com"⟩]
    students := [⟨10, 200, none, none⟩]
    courses := [⟨20, "Algebra", "about", 5, 1⟩]
    enrollments := []
    lectures := [] }

/-- Witness for the amended C7: the teacher claims unassigned student 10 and
the student is enrolled in course 20 with enrollment date 7. -/
theorem assignStudent_spec_witness :
    assignStudent exDbC7b 100 .teacher none 10 7 =
      ({ exDbC7b with
          students := [⟨10, 200, some 1, some "t@example.com"⟩]
          enrollments := [⟨10, 20, 7⟩] },
        .ok 1) := by
  have h := (assignStudent_spec exDbC7b 100 .teacher none 10 7
      ⟨1, 100, "t@example.com"⟩ ⟨10, 200, none, none⟩ rfl rfl).2
      (by decide) (by decide)
  rw [h]
  rfl

/-! ### Mongoose assignment controller (`controllers/assignmentController.js`)

The assignment controller of this repository is the document-oriented
(Mongoose) one: submissions are subdocuments embedded in the assignment, the
student profile carries a `courses` array, and grading/submitting mutate the
found subdocument in place and save the whole assignment. -/

/-- `status` enum of the embedded submission schema (`models/Assignment.js`). -/
inductive SubmissionStatus where
  | submitted
  | graded
  | returned
deriving Repr, DecidableEq

/-- A submission subdocument (`submissionSchema` of `models/Assignment.js`);
`isLate` is written by the controller. -/
structure MSubmission where
  id : Nat
  student : Nat
  submissionFile : String
  submissionDate : Int
  grade : Option Int
  feedback : Option String
  status : SubmissionStatus
  isLate : Bool
deriving Repr, DecidableEq

/-- An assignment document with embedded submissions. -/
structure MAssignment where
  id : Nat
  course : Nat
  dueDate : Int
  totalPoints : Int
  isActive : Bool
  submissions : List MSubmission
deriving Repr, DecidableEq

/-- Mongoose teacher profile (`{ user }` backref). -/
structure MTeacher where
  id : Nat
  user : Nat
deriving Repr, DecidableEq

/-- Mongoose student profile with its `courses` enrollment array. -/
structure MStudent where
  id : Nat
  user : Nat
  courses : List Nat
deriving Repr, DecidableEq

/-- Mongoose course (`{ teacher }` owner reference). -/
structure MCourse where
  id : Nat
  teacher : Nat
deriving Repr, DecidableEq

/-- The document database state used by the assignment controller. -/
structure MDb where
  teachers : List MTeacher
  students : List MStudent
  courses : List MCourse
  assignments : List MAssignment
deriving Repr, DecidableEq

/-- `Teacher.findOne({ user: req.user.id })`. -/
def findMTeacherByUser (db : MDb) (userId : Nat) : Option MTeacher :=
  db.teachers.find? (fun t => t.user == userId)

/-- `Student.findOne({ user: req.user.id })`. -/
def findMStudentByUser (db : MDb) (userId : Nat) : Option MStudent :=
  db.students.find? (fun s => s.user == userId)

/-- `Assignment.findById(assignmentId)`. -/
def findMAssignmentById (db : MDb) (assignmentId : Nat) : Option MAssignment :=
  db.assignments.find? (fun a => a.id == assignmentId)

/-- `Course.findOne({ _id: courseId, teacher: teacherId })`. -/
def findMCourseOwned (db : MDb) (courseId teacherId : Nat) : Option MCourse :=
  db.courses.find? (fun c => c.id == courseId && c.teacher == teacherId)

/-- `assignment.save()`: persist the mutated document back by its id. -/
def saveMAssignment (db : MDb) (a : MAssignment) : MDb :=
  { db with assignments := db.assignments.map (fun x => if x.id == a.id then a else x) }

def assignmentNotFoundError : ErrorHandler := ⟨"Assignment not found", 404⟩

def gradeUnauthorizedError : ErrorHandler :=
  ⟨"Unauthorized to grade this assignment", 403⟩

def submissionNotFoundError : ErrorHandler := ⟨"Submission not found", 404⟩

/-- The 400 error of the grade guard; its message reads
"Grade must be between 0 and <totalPoints>". -/
def gradeRangeError (totalPoints : Int) : ErrorHandler :=
  ⟨"Grade must be between 0 and " ++ toString totalPoints, 400⟩

/-- `findIndex` + in-place mutation of the found submission: set grade,
feedback (whatever the body carried, possibly absent) and `status = graded`
on the first subdocument whose `_id` matches. -/
def gradeFirstMatch (submissionId : Nat) (g : Int) (fb : Option String) :
    List MSubmission → List MSubmission
  | [] => []
  | sub :: rest =>
    if sub.id == submissionId then
      { sub with grade := some g, feedback := fb, status := .graded } :: rest
    else
      sub :: gradeFirstMatch submissionId g fb rest

/-- Embeds `gradeSubmission` (`assignmentController.js` lines 377-484): find
the teacher (404), the assignment (404), check course ownership (403); the
grade guard is `!grade || grade < 0 || grade > assignment.totalPoints` — note
`!grade` is JavaScript falsiness, so an absent grade and the number 0 are both
rejected with the 400 range error; then find the submission by id (404) and
set its grade, feedback and `status = "graded"`, saving the assignment. -/
def gradeSubmission (db : MDb) (userId assignmentId submissionId : Nat)
    (grade : Option Int) (feedback : Option String) :
    MDb × Except ErrorHandler Unit :=
  match findMTeacherByUser db userId with
  | none => (db, .error teacherNotFoundError)
  | some teacher =>
    match findMAssignmentById db assignmentId with
    | none => (db, .error assignmentNotFoundError)
    | some assignment =>
      match findMCourseOwned db assignment.course teacher.id with
      | none => (db, .error gradeUnauthorizedError)
      | some _ =>
        match grade with
        | none => (db, .error (gradeRangeError assignment.totalPoints))
        | some g =>
          if g == 0 || g < 0 || g > assignment.totalPoints then
            (db, .error (gradeRangeError assignment.totalPoints))
          else
            if assignment.submissions.any (fun sub => sub.id == submissionId) then
              let a2 := { assignment with
                submissions := gradeFirstMatch submissionId g feedback
                  assignment.submissions }
              (saveMAssignment db a2, .ok ())
            else
              (db, .error submissionNotFoundError)

def notEnrolledForbiddenError : ErrorHandler := ⟨"Not enrolled in this course", 403⟩

def assignmentInactiveError : ErrorHandler :=
  ⟨"This assignment is no longer accepting submissions", 400⟩

def noFileError : ErrorHandler := ⟨"Please upload your submission file", 400⟩

def invalidFileTypeError : ErrorHandler :=
  ⟨"Invalid file type. Please upload a valid document.", 400⟩

/-- The submission mimetype allow-list of `submitAssignment`. -/
def validFileTypes : List String :=
  ["application/pdf", "application/msword",
   "application/vnd.openxmlformats-officedocument.wordprocessingml.document",
   "image/jpeg", "image/png", "application/zip", "application/x-zip-compressed"]

/-- The uploaded file as seen by the controller. -/
structure UploadFile where
  name : String
  mimetype : String
deriving Repr, DecidableEq

/-- In-place overwrite of the first existing submission of the student: new
file URL, new submission date, status reset to `submitted`, `isLate`
recomputed; grade and feedback are not touched. -/
def submitOverwrite (sid : Nat) (now : Int) (url : String) (late : Bool) :
    List MSubmission → List MSubmission
  | [] => []
  | sub :: rest =>
    if sub.student == sid then
      { sub with
        submissionFile := url
        submissionDate := now
        status := .submitted
        isLate := late } :: rest
    else
      sub :: submitOverwrite sid now url late rest

/-- Embeds `submitAssignment` (`assignmentController.js` lines 210-374): find
the student (404), the assignment (404) and its course (404); require
enrollment (403), an active assignment (400), a file (400) of an allowed
mimetype (400); compute `isLate = now > dueDate` (strictly after); upload to
the storage collaborator (`uploadResult`; a throw aborts with 500); then
either overwrite the student's existing submission in place or push a new
subdocument (grade defaults to null, feedback to "" per the schema), save,
and answer with the `isLate` flag. -/
def submitAssignment (db : MDb) (userId assignmentId : Nat)
    (file : Option UploadFile) (uploadResult : Except String String)
    (freshSubId : Nat) (now : Int) : MDb × Except ErrorHandler Bool :=
  match findMStudentByUser db userId with
  | none => (db, .error studentNotFoundError)
  | some student =>
    match findMAssignmentById db assignmentId with
    | none => (db, .error assignmentNotFoundError)
    | some assignment =>
      match db.courses.find? (fun c => c.id == assignment.course) with
      | none => (db, .error courseNotFoundError)
      | some course =>
        if !(student.courses.any (fun cid => cid == course.id)) then
          (db, .error notEnrolledForbiddenError)
        else if !assignment.isActive then
          (db, .error assignmentInactiveError)
        else
          match file with
          | none => (db, .error noFileError)
          | some f =>
            if !(validFileTypes.contains f.mimetype) then
              (db, .error invalidFileTypeError)
            else
              let isDueDatePassed := decide (now > assignment.dueDate)
              match uploadResult with
              | .error msg => (db, .error ⟨"File upload failed: " ++ msg, 500⟩)
              | .ok url =>
                let subs :=
                  if assignment.submissions.any
                      (fun sub => sub.student == student.id) then
                    submitOverwrite student.id now url isDueDatePassed
                      assignment.submissions
                  else
                    assignment.submissions ++
                      [{ id := freshSubId
                         student := student.id
                         submissionFile := url
                         submissionDate := now
                         grade := none
                         feedback := some ""
                         status := .submitted
                         isLate := isDueDatePassed }]
                let a2 := { assignment with submissions := subs }
                (saveMAssignment db a2, .ok isDueDatePassed)

/-! ### Lemmas for the submission lifecycle -/

theorem forall2_map_self {α : Type} (r : α → α → Prop) (xs : List α) (f : α → α)
    (hf : ∀ x, r x (f x)) : List.Forall₂ r xs (xs.map f) := by
  induction xs with
  | nil => exact List.Forall₂.nil
  | cons x rest ih => exact List.Forall₂.cons (hf x) ih

/-- `find?` over `saveMAssignment`: the first hit for the id becomes the saved
document. -/
theorem find?_massignment_update (xs : List MAssignment) (aid : Nat)
    (a2 : MAssignment) (hid : a2.id = aid) (old : MAssignment)
    (h : xs.find? (fun x => x.id == aid) = some old) :
    (xs.map (fun x => if x.id == a2.id then a2 else x)).find?
      (fun x => x.id == aid) = some a2 := by
  rw [hid]
  induction xs with
  | nil => cases h
  | cons x rest ih =>
    by_cases hx : (x.id == aid) = true
    · have hpl : (a2.id == aid) = true := by simp [hid]
      simp only [List.map_cons, hx, if_true, List.find?_cons, hpl]
    · have hx2 : (x.id == aid) = false := by
        revert hx
        cases x.id == aid <;> simp
      simp only [List.find?_cons, hx2] at h
      simp only [List.map_cons, hx2, Bool.false_eq_true, if_false, List.find?_cons] at h ⊢
      exact ih h

/-- Number of submission rows a student holds on an assignment. -/
def submissionCountFor (subs : List MSubmission) (sid : Nat) : Nat :=
  (subs.filter (fun sub => sub.student == sid)).length

theorem submissionCountFor_eq_zero_of_any_false (subs : List MSubmission) (sid : Nat)
    (h : subs.any (fun sub => sub.student == sid) = false) :
    submissionCountFor subs sid = 0 := by
  unfold submissionCountFor
  rw [List.any_eq_false] at h
  rw [List.filter_eq_nil_iff.mpr h]
  rfl

theorem submissionCountFor_ne_zero_of_any_true (subs : List MSubmission) (sid : Nat)
    (h : subs.any (fun sub => sub.student == sid) = true) :
    submissionCountFor subs sid ≠ 0 := by
  unfold submissionCountFor
  rw [List.any_eq_true] at h
  obtain ⟨x, hx, hpx⟩ := h
  have hmem : x ∈ subs.filter (fun sub => sub.student == sid) :=
    List.mem_filter.mpr ⟨hx, hpx⟩
  intro hlen
  rw [List.length_eq_zero] at hlen
  rw [hlen] at hmem
  cases hmem

theorem submissionCountFor_append_one (subs : List MSubmission) (sid : Nat)
    (row : MSubmission) (hrow : row.student = sid) :
    submissionCountFor (subs ++ [row]) sid = submissionCountFor subs sid + 1 := by
  unfold submissionCountFor
  rw [List.filter_append]
  simp [hrow]

theorem submitOverwrite_count (sid : Nat) (now : Int) (url : String) (late : Bool)
    (subs : List MSubmission) :
    submissionCountFor (submitOverwrite sid now url late subs) sid =
      submissionCountFor subs sid := by
  induction subs with
  | nil => rfl
  | cons sub rest ih =>
    cases hs : sub.student == sid with
    | true => simp [submitOverwrite, hs, List.filter_cons, submissionCountFor]
    | false =>
      unfold submissionCountFor at ih
      simp [submitOverwrite, hs, List.filter_cons, submissionCountFor, ih]

theorem submitOverwrite_find? (sid : Nat) (now : Int) (url : String) (late : Bool)
    (subs : List MSubmission) (sub0 : MSubmission)
    (h : subs.find? (fun sub => sub.student == sid) = some sub0) :
    (submitOverwrite sid now url late subs).find? (fun sub => sub.student == sid) =
      some { sub0 with
        submissionFile := url
        submissionDate := now
        status := .submitted
        isLate := late } := by
  induction subs with
  | nil => cases h
  | cons sub rest ih =>
    cases hs : sub.student == sid with
    | true =>
      simp only [List.find?_cons, hs, if_true] at h
      injection h with h
      subst h
      simp [submitOverwrite, hs, List.find?_cons]
    | false =>
      simp only [List.find?_cons, hs, Bool.false_eq_true, if_false] at h
      simp only [submitOverwrite, hs, Bool.false_eq_true, if_false, List.find?_cons]
      exact ih h

theorem submitOverwrite_filter_other (sid : Nat) (now : Int) (url : String)
    (late : Bool) (subs : List MSubmission) :
    (submitOverwrite sid now url late subs).filter
        (fun sub => !(sub.student == sid)) =
      subs.filter (fun sub => !(sub.student == sid)) := by
  induction subs with
  | nil => rfl
  | cons sub rest ih =>
    cases hs : sub.student == sid with
    | true => simp [submitOverwrite, hs, List.filter_cons]
    | false => simp [submitOverwrite, hs, List.filter_cons, ih]

theorem submitOverwrite_length (sid : Nat) (now : Int) (url : String) (late : Bool)
    (subs : List MSubmission) :
    (submitOverwrite sid now url late subs).length = subs.length := by
  induction subs with
  | nil => rfl
  | cons sub rest ih =>
    cases hs : sub.student == sid with
    | true => simp [submitOverwrite, hs]
    | false => simp [submitOverwrite, hs, ih]

/-! ### C3: the grade guard rejects 0 -/

/-- Concrete document database for C3: teacher (user 100) owns course 20;
assignment 40 (100 points, due 50) has one submitted submission (id 60) by
student 10. -/
def exDbC3 : MDb :=
  { teachers := [⟨1, 100⟩]
    students := [⟨10, 200, [20]⟩]
    courses := [⟨20, 1⟩]
    assignments := [⟨40, 20, 50, 100, true,
      [⟨60, 10, "old.pdf", 45, none, some "", .submitted, false⟩]⟩] }

/-- C3: the guard is `!grade || grade < 0 || grade > assignment.totalPoints`
and `0` is JavaScript-falsy, so the in-range grade 0 is rejected with the 400
error whose own message ("Grade must be between 0 and 100") says 0 is valid;
the submission stays ungraded and the store is unchanged, while the in-range
grade 1 is accepted. -/
theorem gradeSubmission_rejects_zero :
    (0 : Int) ≥ 0 ∧ (0 : Int) ≤ (100 : Int) ∧
    (gradeSubmission exDbC3 100 40 60 (some 0) (some "good")).2 =
      .error (gradeRangeError 100) ∧
    (gradeSubmission exDbC3 100 40 60 (some 0) (some "good")).1 = exDbC3 ∧
    (gradeSubmission exDbC3 100 40 60 (some 1) (some "good")).2 = .ok () :=
  ⟨by decide, by decide, rfl, rfl, rfl⟩

/-! ### C4: submit is an upsert keyed on the student -/

/-- C4: a successful submit computes `isLate` as `now > dueDate` (strictly
after) and upserts by student: if the student already has a submission it is
overwritten in place — new file URL, new submission date, status reset to
`submitted`, `isLate` recomputed, grade and feedback untouched, every other
submission unchanged, and no row added — and if not, exactly one new row is
appended; in either case the student's row count becomes 1 when it was 0 and
stays unchanged otherwise, so a second row for the same (assignment, student)
is never created. -/
theorem submitAssignment_upsert (db : MDb) (userId assignmentId : Nat)
    (file : Option UploadFile) (url : String) (freshSubId : Nat) (now : Int)
    (student : MStudent) (assignment : MAssignment) (db2 : MDb) (late : Bool)
    (hstud : findMStudentByUser db userId = some student)
    (hassign : findMAssignmentById db assignmentId = some assignment)
    (h : submitAssignment db userId assignmentId file (.ok url) freshSubId now =
      (db2, .ok late)) :
    late = decide (now > assignment.dueDate) ∧
    ∃ a2, findMAssignmentById db2 assignmentId = some a2 ∧
      submissionCountFor a2.submissions student.id =
        (if submissionCountFor assignment.submissions student.id = 0 then 1
          else submissionCountFor assignment.submissions student.id) ∧
      (∀ sub0, assignment.submissions.find?
          (fun sub => sub.student == student.id) = some sub0 →
        a2.submissions.find? (fun sub => sub.student == student.id) =
          some { sub0 with
            submissionFile := url
            submissionDate := now
            status := .submitted
            isLate := decide (now > assignment.dueDate) } ∧
        a2.submissions.filter (fun sub => !(sub.student == student.id)) =
          assignment.submissions.filter (fun sub => !(sub.student == student.id)) ∧
        a2.submissions.length = assignment.submissions.length) ∧
      (assignment.submissions.find? (fun sub => sub.student == student.id) = none →
        a2.submissions = assignment.submissions ++
          [⟨freshSubId, student.id, url, now, none, some "", .submitted,
            decide (now > assignment.dueDate)⟩]) := by
  unfold submitAssignment at h
  rw [hstud] at h
  dsimp only at h
  rw [hassign] at h
  dsimp only at h
  split at h
  · cases h
  next course hcourse =>
    split at h
    · cases h
    · split at h
      · cases h
      · split at h
        · cases h
        next f =>
          split at h
          · cases h
          · have haid : (assignment.id == assignmentId) = true := by
              have := List.find?_some hassign
              simpa using this
            by_cases hany : assignment.submissions.any
                (fun sub => sub.student == student.id) = true
            · rw [if_pos hany] at h
              injection h with h1 h2
              injection h2 with h2
              refine ⟨h2.symm, ?_⟩
              refine ⟨{ assignment with
                submissions := (submitOverwrite student.id now url
                  (decide (now > assignment.dueDate)) assignment.submissions) },
                ?_, ?_, ?_, ?_⟩
              · rw [← h1]
                unfold saveMAssignment findMAssignmentById
                exact find?_massignment_update db.assignments assignmentId _
                  (by simpa using haid) assignment hassign
              · rw [submitOverwrite_count]
                rw [if_neg (submissionCountFor_ne_zero_of_any_true _ _ hany)]
              · intro sub0 hfind0
                exact ⟨submitOverwrite_find? student.id now url _ _ sub0 hfind0,
                  submitOverwrite_filter_other student.id now url _ _,
                  submitOverwrite_length student.id now url _ _⟩
              · intro hnone
                rw [List.any_eq_true] at hany
                obtain ⟨x, hx, hpx⟩ := hany
                rw [List.find?_eq_none] at hnone
                exact absurd hpx (hnone x hx)
            · have hany2 : assignment.submissions.any
                  (fun sub => sub.student == student.id) = false := by
                revert hany
                cases assignment.submissions.any
                  (fun sub => sub.student == student.id) <;> simp
              rw [if_neg hany] at h
              injection h with h1 h2
              injection h2 with h2
              refine ⟨h2.symm, ?_⟩
              refine ⟨{ assignment with
                submissions := (assignment.submissions ++
                  [⟨freshSubId, student.id, url, now, none, some "", .submitted,
                    decide (now > assignment.dueDate)⟩]) },
                ?_, ?_, ?_, ?_⟩
              · rw [← h1]
                unfold saveMAssignment findMAssignmentById
                exact find?_massignment_update db.assignments assignmentId _
                  (by simpa using haid) assignment hassign
              · rw [submissionCountFor_append_one _ _ _ rfl,
                  submissionCountFor_eq_zero_of_any_false _ _ hany2]
                rfl
              · intro sub0 hfind0
                rw [List.any_eq_false] at hany2
                have hmem := List.mem_of_find?_eq_some hfind0
                have hp := List.find?_some hfind0
                exact absurd hp (hany2 sub0 hmem)
              · intro _
                rfl

/-- Concrete document database for the C4 witness: assignment 40 (due 50)
already holds a graded submission (id 60) by student 10. -/
def exDbC4 : MDb :=
  { teachers := [⟨1, 100⟩]
    students := [⟨10, 200, [20]⟩]
    courses := [⟨20, 1⟩]
    assignments := [⟨40, 20, 50, 100, true,
      [⟨60, 10, "old.pdf", 45, some 80, some "ok", .graded, false⟩]⟩] }

/-- Witness for C4: student 10 resubmits after the due date; the stored row
count stays 1, and the single row is the old one overwritten in place with the
new file, date 55, status `submitted`, `isLate = true`, grade 80 and feedback
"ok" untouched. -/
theorem submitAssignment_upsert_witness :
    ∃ a2, findMAssignmentById
        (submitAssignment exDbC4 200 40 (some ⟨"s.pdf", "application/pdf"⟩)
          (.ok "https://s3/new.pdf") 61 55).1 40 = some a2 ∧
      submissionCountFor a2.submissions 10 = 1 ∧
      a2.submissions.find? (fun sub => sub.student == 10) =
        some ⟨60, 10, "https://s3/new.pdf", 55, some 80, some "ok",
          .submitted, true⟩ := by
  have h := submitAssignment_upsert exDbC4 200 40
    (some ⟨"s.pdf", "application/pdf"⟩) "https://s3/new.pdf" 61 55
    ⟨10, 200, [20]⟩
    ⟨40, 20, 50, 100, true,
      [⟨60, 10, "old.pdf", 45, some 80, some "ok", .graded, false⟩]⟩
    (submitAssignment exDbC4 200 40 (some ⟨"s.pdf", "application/pdf"⟩)
      (.ok "https://s3/new.pdf") 61 55).1
    true rfl rfl rfl
  obtain ⟨-, a2, hfind, hcount, hover, -⟩ := h
  obtain ⟨hfirst, -, -⟩ := hover
    ⟨60, 10, "old.pdf", 45, some 80, some "ok", .graded, false⟩ rfl
  refine ⟨a2, hfind, ?_, ?_⟩
  · rw [hcount]
    decide
  · rw [hfirst]
    rfl

/-! ### C10: grading only touches grade, feedback and status of its target -/

/-- C10: a successful grading call leaves the teacher, student and course
tables unchanged; on the graded assignment every submission keeps its
position, its student, file, date and isLate fields, any submission whose id
differs from the target is entirely unchanged, and each submission either kept
grade, feedback and status or is the target that received the new grade,
feedback and `status = graded`; the assignment's own scalar fields are
unchanged, and every other assignment row is unchanged. -/
theorem gradeSubmission_frame (db : MDb) (userId assignmentId submissionId : Nat)
    (grade : Option Int) (feedback : Option String) (db2 : MDb)
    (h : gradeSubmission db userId assignmentId submissionId grade feedback =
      (db2, .ok ())) :
    db2.teachers = db.teachers ∧ db2.students = db.students ∧
    db2.courses = db.courses ∧
    ∃ assignment a2 g, grade = some g ∧
      findMAssignmentById db assignmentId = some assignment ∧
      findMAssignmentById db2 assignmentId = some a2 ∧
      a2.id = assignment.id ∧ a2.course = assignment.course ∧
      a2.dueDate = assignment.dueDate ∧ a2.totalPoints = assignment.totalPoints ∧
      a2.isActive = assignment.isActive ∧
      List.Forall₂ (fun old new =>
          (old.id ≠ submissionId → new = old) ∧
          (new.student = old.student ∧ new.submissionFile = old.submissionFile ∧
            new.submissionDate = old.submissionDate ∧ new.isLate = old.isLate) ∧
          ((new.grade = old.grade ∧ new.feedback = old.feedback ∧
              new.status = old.status) ∨
            (new.grade = some g ∧ new.feedback = feedback ∧
              new.status = .graded)))
        assignment.submissions a2.submissions ∧
      List.Forall₂ (fun old new => old.id ≠ assignment.id → new = old)
        db.assignments db2.assignments := by
  unfold gradeSubmission at h
  split at h
  · cases h
  next teacher hteacher =>
    split at h
    · cases h
    next assignment hassign =>
      split at h
      · cases h
      next course hcourse =>
        split at h
        · cases h
        next g =>
          split at h
          · cases h
          next hrange =>
            split at h
            next hany =>
              injection h with h1 h2
              have haid : (assignment.id == assignmentId) = true := by
                have := List.find?_some hassign
                simpa using this
              refine ⟨by rw [← h1]; rfl, by rw [← h1]; rfl, by rw [← h1]; rfl, ?_⟩
              refine ⟨assignment, { assignment with
                submissions := (gradeFirstMatch submissionId g feedback
                  assignment.submissions) }, g, rfl, hassign,
                ?_, rfl, rfl, rfl, rfl, rfl, ?_, ?_⟩
              · rw [← h1]
                unfold saveMAssignment findMAssignmentById
                exact find?_massignment_update db.assignments assignmentId _
                  (by simpa using haid) assignment hassign
              · clear h1 hany hrange hassign hcourse
                induction assignment.submissions with
                | nil => exact List.Forall₂.nil
                | cons sub rest ih =>
                  by_cases hs : (sub.id == submissionId) = true
                  · simp only [gradeFirstMatch, hs, if_true]
                    refine List.Forall₂.cons ?_ ?_
                    · exact ⟨fun hne => absurd (by simpa using hs) hne,
                        ⟨rfl, rfl, rfl, rfl⟩, Or.inr ⟨rfl, rfl, rfl⟩⟩
                    · exact List.forall₂_same.mpr (fun x _ =>
                        ⟨fun _ => rfl, ⟨rfl, rfl, rfl, rfl⟩, Or.inl ⟨rfl, rfl, rfl⟩⟩)
                  · have hs2 : (sub.id == submissionId) = false := by
                      revert hs
                      cases sub.id == submissionId <;> simp
                    simp only [gradeFirstMatch, hs2, Bool.false_eq_true, if_false]
                    exact List.Forall₂.cons
                      ⟨fun _ => rfl, ⟨rfl, rfl, rfl, rfl⟩, Or.inl ⟨rfl, rfl, rfl⟩⟩ ih
              · rw [← h1]
                unfold saveMAssignment
                dsimp only
                refine forall2_map_self _ _ _ (fun x => ?_)
                intro hne
                rw [if_neg (by simp [hne])]
            next hany =>
              cases h

/-- Witness for C10: grading submission 60 of assignment 40 with grade 75
leaves the teacher table unchanged and the stored assignment differs only in
the target submission's grade, feedback and status. -/
theorem gradeSubmission_frame_witness :
    (gradeSubmission exDbC3 100 40 60 (some 75) (some "good")).1.teachers =
      exDbC3.teachers ∧
    findMAssignmentById (gradeSubmission exDbC3 100 40 60 (some 75)
      (some "good")).1 40 =
      some ⟨40, 20, 50, 100, true,
        [⟨60, 10, "old.pdf", 45, some 75, some "good", .graded, false⟩]⟩ := by
  have h := gradeSubmission_frame exDbC3 100 40 60 (some 75) (some "good")
    (gradeSubmission exDbC3 100 40 60 (some 75) (some "good")).1 rfl
  exact ⟨h.1, rfl⟩

end EduSys
